import Mathlib

/-!
Shallow embedding of the Generic Interrupt Controller (GIC) driver
`src/drivers/irqchip/irq-gic.c` of the xvisor hypervisor, with theorems
checking the natural-language specification against it.

Conventions of the embedding:
* C `u32` values are `Nat` reduced modulo `2^32` wherever the C arithmetic
  can overflow; shifts and masks whose results are provably below `2^32`
  are written without the redundant reduction.
* Memory-mapped register writes become explicit traces (lists of write
  events tagged with the controller index of the register bank written);
  the full memory barrier of `gic_raise` becomes an explicit trace event.
* The distributor register state is a record of word maps indexed by the
  bank-relative byte offsets the driver itself computes; the enable
  set/clear banks are two write-only views of one underlying enable word
  array (write-one-to-set and write-one-to-clear), following the register
  layout the specification describes.
* External host-framework calls made by `gic_dist_init` become an explicit
  list of host actions.
-/

/-- `UINT_MAX` from `vmm_limits.h`: the largest 32-bit unsigned value. -/
def UINT_MAX : Nat := 4294967295

/-- `2^32`, the modulus of the 32-bit unsigned arithmetic of the driver. -/
def U32_MOD : Nat := 4294967296

/-- 32-bit unsigned subtraction `a - b` with wrap-around modulo `2^32`. -/
def u32_sub (a b : Nat) : Nat := (a % U32_MOD + (U32_MOD - b % U32_MOD)) % U32_MOD

/-- The macro `gic_irq(gic, irq) = irq->num - gic->irq_offset` (u32). -/
def gic_irq (num irq_offset : Nat) : Nat := u32_sub num irq_offset

/-- Modelled from the spec: trigger-type encoding of the host framework
(`vmm_host_irq.h` is not under `src/`).  Only level-high and edge-rising are
supported by the driver; the exact numeric values never decide a claim. -/
def VMM_IRQ_TYPE_EDGE_RISING : Nat := 1

/-- Modelled from the spec: the level-high trigger-type encoding. -/
def VMM_IRQ_TYPE_LEVEL_HIGH : Nat := 4

/-- Modelled from the spec: return codes of the chip operations
(`vmm_error.h` is not under `src/`).  The claims only distinguish success
(`VMM_OK`, i.e. 0) from the invalid-argument error (`VMM_EINVALID`). -/
inductive GicResult
  | ok
  | einvalid
deriving DecidableEq

/-- The `vmm_irq_return_t` values used by the cascade handler. -/
inductive vmm_irq_return
  | VMM_IRQ_NONE
  | VMM_IRQ_HANDLED
deriving DecidableEq

/-- Identity of a memory-mapped GIC register, in place of raw virtual
addresses; banked registers carry the bank-relative byte offset the driver
adds to the bank base. -/
inductive GicReg
  | distCtrl
  | distEnableSet (byteOff : Nat)
  | distEnableClear (byteOff : Nat)
  | distConfig (byteOff : Nat)
  | distTarget (byteOff : Nat)
  | distPri (byteOff : Nat)
  | distSoftint
  | cpuEoi
  | cpu2Dir
deriving DecidableEq

/-- One `gic_write` call: the controller index whose register bank is
addressed, the register, and the 32-bit value written. -/
structure GicWrite where
  gicIdx : Nat
  reg : GicReg
  val : Nat
deriving DecidableEq

/-- A trace event of `gic_raise`: the `arch_wmb()` barrier or a write. -/
inductive GicEvent
  | archWmb
  | write (w : GicWrite)
deriving DecidableEq

/-- Distributor register state of one controller: underlying enable words,
trigger-configuration words and target words, indexed by the bank-relative
byte offsets computed by the driver. -/
structure DistState where
  enable : Nat → Nat
  config : Nat → Nat
  target : Nat → Nat

/-- Hardware semantics of a write to the enable-clear bank (write one to
clear), per the register layout in the specification. -/
def distWriteEnableClear (s : DistState) (off v : Nat) : DistState :=
  { s with enable := fun o => if o = off then s.enable o &&& (UINT_MAX ^^^ v) else s.enable o }

/-- Hardware semantics of a write to the enable-set bank (write one to set). -/
def distWriteEnableSet (s : DistState) (off v : Nat) : DistState :=
  { s with enable := fun o => if o = off then s.enable o ||| v else s.enable o }

/-- Plain store to a trigger-configuration word. -/
def distWriteConfig (s : DistState) (off v : Nat) : DistState :=
  { s with config := fun o => if o = off then v else s.config o }

/-- Plain store to a target word. -/
def distWriteTarget (s : DistState) (off v : Nat) : DistState :=
  { s with target := fun o => if o = off then v else s.target o }

/-- The enable bit of the line with local number `gicirq`, read exactly the
way `gic_set_type` reads it: the enable word at byte offset
`(gicirq / 32) * 4`, masked with `1 << (gicirq % 32)`. -/
def lineEnabledBit (s : DistState) (gicirq : Nat) : Nat :=
  s.enable (gicirq / 32 * 4) &&& (1 <<< (gicirq % 32))

/-- `gic_active_irq`: reads the acknowledge register of the first
controller (`gic_data[0]`), masks to the 10-bit interrupt-id field, and
either offsets by the `irq_offset` of the first controller or reports
`UINT_MAX`.  `offset0` is `gic_data[0].irq_offset` and `ack` the raw value
read from `GIC_CPU_INTACK`. -/
def gic_active_irq (offset0 ack : Nat) : Nat :=
  let ret := ack &&& 1023
  if ret < 1021 then (ret + offset0) % U32_MOD else UINT_MAX

/-- `gic_eoi_irq`: writes the local line number to the EOI register, and in
eoimode additionally to the deactivate register of the secondary interface.
`gi` is the controller index recovered from the chip data of the line, `num`
the global line number and `irq_offset` the controller offset. -/
def gic_eoi_irq (gi : Nat) (eoimode : Bool) (num irq_offset : Nat) : List GicWrite :=
  let irq_no := gic_irq num irq_offset
  [⟨gi, .cpuEoi, irq_no⟩] ++ (if eoimode then [⟨gi, .cpu2Dir, irq_no⟩] else [])

/-- `gic_set_type`: trigger-type reconfiguration of one line.  Returns the
result code, the distributor state after the call and the trace of register
writes performed.  `num` is the global number of the line, `irq_offset` the
offset of the owning controller, `ty` the requested trigger type (named
`type` in the source). -/
def gic_set_type (gi : Nat) (s : DistState) (num irq_offset ty : Nat) :
    GicResult × DistState × List GicWrite :=
  let gicirq := gic_irq num irq_offset
  let enablemask := 1 <<< (gicirq % 32)
  let enableoff := gicirq / 32 * 4
  let confmask := 2 <<< (gicirq % 16 * 2)
  let confoff := gicirq / 16 * 4
  if gicirq < 16 then (.einvalid, s, [])
  else if ty ≠ VMM_IRQ_TYPE_LEVEL_HIGH ∧ ty ≠ VMM_IRQ_TYPE_EDGE_RISING then
    (.einvalid, s, [])
  else
    let val0 := s.config confoff
    let val :=
      if ty = VMM_IRQ_TYPE_LEVEL_HIGH then val0 &&& (UINT_MAX ^^^ confmask)
      else if ty = VMM_IRQ_TYPE_EDGE_RISING then val0 ||| confmask
      else val0
    if s.enable enableoff &&& enablemask ≠ 0 then
      (.ok,
        distWriteEnableSet
          (distWriteConfig (distWriteEnableClear s enableoff enablemask) confoff val)
          enableoff enablemask,
        [⟨gi, .distEnableClear enableoff, enablemask⟩,
         ⟨gi, .distConfig confoff, val⟩,
         ⟨gi, .distEnableSet enableoff, enablemask⟩])
    else
      (.ok, distWriteConfig s confoff val, [⟨gi, .distConfig confoff, val⟩])

/-- `gic_set_affinity`: routes one line to the first core of the given
mask.  `cpu` is the result of `vmm_cpumask_first(mask_val)` (the CPU-set
representation is an external collaborator). -/
def gic_set_affinity (gi : Nat) (s : DistState) (num irq_offset cpu : Nat) :
    GicResult × DistState × List GicWrite :=
  let shift := num % 4 * 8
  if 8 ≤ cpu then (.einvalid, s, [])
  else
    let regoff := gic_irq num irq_offset &&& 4294967292
    let mask := 255 <<< shift
    let bit := 1 <<< (cpu + shift)
    let val := s.target regoff &&& (UINT_MAX ^^^ mask)
    (.ok, distWriteTarget s regoff (val ||| bit),
      [⟨gi, .distTarget regoff, val ||| bit⟩])

/-- `gic_raise`: barrier, then one write of `map << 16 | irq->num` to the
software-interrupt register of `gic_data[0]`.  `ownerIdx` is the index of
the controller owning the line (reachable through the chip data of `irq`);
the source never consults it. -/
def gic_raise (ownerIdx cpumap num : Nat) : List GicEvent :=
  [.archWmb, .write ⟨0, .distSoftint, ((cpumap <<< 16) ||| num) % U32_MOD⟩]

/-- `gic_handle_cascade_irq`: reads the acknowledge register of the child
(`ack` is the raw value), and returns the handler result together with the
list of global numbers passed to `vmm_host_generic_irq_exec`.  `irq_offset`
is the offset of the child controller. -/
def gic_handle_cascade_irq (irq_offset ack : Nat) : vmm_irq_return × List Nat :=
  let gic_irq_v := ack &&& 1023
  if gic_irq_v = 1023 then (.VMM_IRQ_NONE, [])
  else
    let cascade_irq := (gic_irq_v + irq_offset) % U32_MOD
    if 32 ≤ gic_irq_v ∧ gic_irq_v ≤ 1020 then (.VMM_IRQ_HANDLED, [cascade_irq])
    else (.VMM_IRQ_HANDLED, [])

/-- `gic->irq_offset = (irq_start - 1) & ~31` of `gic_init_bases`, in
32-bit unsigned arithmetic (`~31` is `0xFFFFFFE0 = 4294967264`). -/
def gic_irq_offset (irq_start : Nat) : Nat := u32_sub irq_start 1 &&& 4294967264

/-- The supported-line-count computation shared by `gic_init_bases`
(field `gic_irqs`) and `gic_dist_init` (local `max_irq`): decode the
`GIC_DIST_CTR` register value `ctr` and clamp to the architected 1020. -/
def gic_ctr_irqs (ctr : Nat) : Nat :=
  let n := ((ctr &&& 31) + 1) * 32
  if n > 1020 then 1020 else n

/-- `irq_limit` of `gic_dist_init`: `gic->irq_offset + max_irq` (u32),
clamped to `capacity = CONFIG_HOST_IRQ_COUNT` (a Kconfig constant not under
`src/`, kept as a parameter). -/
def gic_dist_irq_limit (irq_offset ctr capacity : Nat) : Nat :=
  let limit := (irq_offset + gic_ctr_irqs ctr) % U32_MOD
  if limit > capacity then capacity else limit

/-- One host-framework call made by the registration loop of
`gic_dist_init`. -/
inductive HostAction
  | setChip (i : Nat)
  | setChipData (i gicIdx : Nat)
  | setHandler (i : Nat)
  | markPerCpu (i : Nat)
deriving DecidableEq

/-- The host-framework registration loop of `gic_dist_init`: for every
`i < irq_limit`, set the chip, the chip data (the owning controller) and
the handler, and mark `i` per-CPU when `i < 32`. -/
def gic_dist_init_host (gicIdx irq_offset ctr capacity : Nat) : List HostAction :=
  (List.range (gic_dist_irq_limit irq_offset ctr capacity)).flatMap fun i =>
    [.setChip i, .setChipData i gicIdx, .setHandler i] ++
      (if i < 32 then [.markPerCpu i] else [])

/-- The `parent_irq` resolution of `gic_devtree_init`: the property value
when the device tree provides one, else the fallback constant written by
the source. -/
def gic_devtree_parent_irq (parent_irq_prop : Option Nat) : Nat :=
  match parent_irq_prop with
  | some v => v
  | none => 1020

/-- The cascade decision of `gic_devtree_init`: when a parent exists, the
controller is registered through `gic_cascade_irq` against the resolved
parent line (`some line`); with no parent, no cascade registration happens
(`none`) and the active-interrupt callback is installed instead. -/
def gic_devtree_cascade (parent : Bool) (parent_irq_prop : Option Nat) : Option Nat :=
  if parent then some (gic_devtree_parent_irq parent_irq_prop) else none

/-- A concrete distributor state with every enable bit set, used by
witnesses. -/
def distStateAllOnes : DistState :=
  ⟨fun _ => UINT_MAX, fun _ => 0, fun _ => 0⟩

/-! ## Helper lemmas on 32-bit mask arithmetic -/

theorem lor_land_self (a m : Nat) : (a ||| m) &&& m = m := by
  apply Nat.eq_of_testBit_eq
  intro i
  rw [Nat.testBit_and, Nat.testBit_or]
  cases m.testBit i <;> simp

theorem one_shiftLeft_pos (k : Nat) : 0 < 1 <<< k := by
  rw [Nat.one_shiftLeft]
  exact Nat.pos_pow_of_pos k (by norm_num)

theorem u32_sub_lt (a b : Nat) : u32_sub a b < 4294967296 := by
  unfold u32_sub U32_MOD
  omega

/-- Masking with `~31 = 0xFFFFFFE0` rounds a 32-bit value down to a
multiple of 32. -/
theorem land_mask32 (x : Nat) (hx : x < 4294967296) :
    x &&& 4294967264 = x / 32 * 32 := by
  have hmask : (4294967264 : Nat) = (2 ^ 27 - 1) <<< 5 := by decide
  have hdiv : x / 32 * 32 = (x >>> 5) <<< 5 := by
    rw [Nat.shiftRight_eq_div_pow, Nat.shiftLeft_eq]
  rw [hmask, hdiv]
  apply Nat.eq_of_testBit_eq
  intro i
  rw [Nat.testBit_and, Nat.testBit_shiftLeft, Nat.testBit_shiftLeft, Nat.testBit_shiftRight,
    Nat.testBit_two_pow_sub_one]
  by_cases h5 : 5 ≤ i
  · have h55 : 5 + (i - 5) = i := by omega
    rw [h55]
    by_cases h32 : i < 32
    · have h27 : i - 5 < 27 := by omega
      simp [h5, h27]
    · have h2i : (4294967296 : Nat) ≤ 2 ^ i := by
        calc (4294967296 : Nat) = 2 ^ 32 := by norm_num
          _ ≤ 2 ^ i := Nat.pow_le_pow_right (by norm_num) (by omega)
      have hbit : x.testBit i = false := Nat.testBit_lt_two_pow (lt_of_lt_of_le hx h2i)
      simp [hbit]
  · simp [h5]

/-! ## Claim theorems -/

/-- Claim C1: for every controller, the registration loop of
`gic_dist_init` registers every line within the truncated range
(`i < irq_limit`, the global line numbers that fit the host-framework
capacity) with the host framework, attaching the controller as the
chip-data back-reference of each such line, and marks the lines numbered
below 32 as per-CPU. -/
theorem gic_dist_init_registers_range (gicIdx irq_off ctr capacity i : Nat)
    (hi : i < gic_dist_irq_limit irq_off ctr capacity) :
    HostAction.setChip i ∈ gic_dist_init_host gicIdx irq_off ctr capacity ∧
    HostAction.setChipData i gicIdx ∈ gic_dist_init_host gicIdx irq_off ctr capacity ∧
    HostAction.setHandler i ∈ gic_dist_init_host gicIdx irq_off ctr capacity ∧
    (i < 32 → HostAction.markPerCpu i ∈ gic_dist_init_host gicIdx irq_off ctr capacity) := by
  unfold gic_dist_init_host
  refine ⟨?_, ?_, ?_, fun h32 => ?_⟩ <;>
    rw [List.mem_flatMap] <;>
    refine ⟨i, List.mem_range.mpr hi, ?_⟩
  · simp
  · simp
  · simp
  · simp [h32]

theorem gic_dist_init_registers_range_witness :
    HostAction.setChip 5 ∈ gic_dist_init_host 1 32 0 1024 ∧
    HostAction.setChipData 5 1 ∈ gic_dist_init_host 1 32 0 1024 ∧
    HostAction.setHandler 5 ∈ gic_dist_init_host 1 32 0 1024 ∧
    (5 < 32 → HostAction.markPerCpu 5 ∈ gic_dist_init_host 1 32 0 1024) :=
  gic_dist_init_registers_range 1 32 0 1024 5 (by decide)

/-- Claim C2 (counterexample): with the default `irq_start = 0` and a
hardware line count of 32 (`GIC_DIST_CTR` reading 0), `irq_offset` wraps to
`2^32 - 32`, so `irq_offset + irq_count` exceeds even the largest possible
32-bit host capacity; the claimed invariant
`irq_offset + irq_count <= CONFIG_HOST_IRQ_COUNT` fails for every value the
capacity constant can take. -/
theorem gic_offset_capacity_counterexample :
    gic_irq_offset 0 = 4294967264 ∧
    gic_ctr_irqs 0 = 32 ∧
    ¬(gic_irq_offset 0 + gic_ctr_irqs 0 ≤ 4294967295) := by decide

/-- Claim C2 (amended): for every controller created by `gic_init_bases`,
from any `irq_start` hint and any hardware-reported line count,
`irq_offset % 32 = 0`; and the line-registration limit actually computed by
`gic_dist_init` (not `irq_offset + irq_count`) never exceeds the
host-framework capacity. -/
theorem gic_offset_aligned_and_limit_capped (irq_start ctr capacity : Nat) :
    gic_irq_offset irq_start % 32 = 0 ∧
    gic_dist_irq_limit (gic_irq_offset irq_start) ctr capacity ≤ capacity := by
  constructor
  · unfold gic_irq_offset
    rw [land_mask32 _ (u32_sub_lt _ _)]
    exact Nat.mul_mod_left _ 32
  · simp only [gic_dist_irq_limit]
    split <;> omega

/-- Claim C3: for every child acknowledge value `v = ack &&& 0x3FF` read by
the cascade handler: `v = 1023` yields VMM_IRQ_NONE with zero dispatch
calls; `v` in `[32, 1020]` yields VMM_IRQ_HANDLED with exactly one call to
`vmm_host_generic_irq_exec` with global number `v + irq_offset` (32-bit
sum); any other `v` yields VMM_IRQ_HANDLED with zero dispatch calls. -/
theorem gic_cascade_dispatch_cases (irq_off ack : Nat) :
    (ack &&& 1023 = 1023 →
      gic_handle_cascade_irq irq_off ack = (.VMM_IRQ_NONE, [])) ∧
    (32 ≤ ack &&& 1023 → ack &&& 1023 ≤ 1020 →
      gic_handle_cascade_irq irq_off ack =
        (.VMM_IRQ_HANDLED, [((ack &&& 1023) + irq_off) % U32_MOD])) ∧
    (ack &&& 1023 ≠ 1023 → ¬(32 ≤ ack &&& 1023 ∧ ack &&& 1023 ≤ 1020) →
      gic_handle_cascade_irq irq_off ack = (.VMM_IRQ_HANDLED, [])) := by
  refine ⟨fun h => ?_, fun h1 h2 => ?_, fun hne hr => ?_⟩
  · simp [gic_handle_cascade_irq, h]
  · have hne : ¬(ack &&& 1023 = 1023) := by omega
    simp [gic_handle_cascade_irq, hne, h1, h2]
  · simp [gic_handle_cascade_irq, hne, hr]

theorem gic_cascade_dispatch_cases_witness :
    gic_handle_cascade_irq 64 33 =
      (vmm_irq_return.VMM_IRQ_HANDLED, [((33 &&& 1023) + 64) % U32_MOD]) :=
  (gic_cascade_dispatch_cases 64 33).2.1 (by decide) (by decide)

/-- Claim C4: for every 10-bit acknowledge value read from the first
controller: a value in `[1021, 1023]` makes `gic_active_irq` return
`UINT_MAX`, and a value in `[0, 1020]` makes it return that value plus
`gic_data[0].irq_offset` (32-bit sum). -/
theorem gic_active_irq_cases (offset0 ack : Nat) :
    (1021 ≤ ack &&& 1023 → gic_active_irq offset0 ack = UINT_MAX) ∧
    (ack &&& 1023 ≤ 1020 →
      gic_active_irq offset0 ack = ((ack &&& 1023) + offset0) % U32_MOD) := by
  refine ⟨fun h => ?_, fun h => ?_⟩
  · have hn : ¬(ack &&& 1023 < 1021) := by omega
    simp [gic_active_irq, hn]
  · have hp : ack &&& 1023 < 1021 := by omega
    simp [gic_active_irq, hp]

theorem gic_active_irq_cases_witness :
    gic_active_irq 32 8 = ((8 &&& 1023) + 32) % U32_MOD :=
  (gic_active_irq_cases 32 8).2 (by decide)

/-- Claim C5: for every line with local number at least 32 and requested
type level-high or edge-rising, `gic_set_type` returns success and leaves
the enable bit of the line exactly as it was before the call. -/
theorem gic_set_type_preserves_enable (gi : Nat) (s : DistState) (num irq_off ty : Nat)
    (h32 : 32 ≤ gic_irq num irq_off)
    (hty : ty = VMM_IRQ_TYPE_LEVEL_HIGH ∨ ty = VMM_IRQ_TYPE_EDGE_RISING) :
    (gic_set_type gi s num irq_off ty).1 = GicResult.ok ∧
    (lineEnabledBit (gic_set_type gi s num irq_off ty).2.1 (gic_irq num irq_off) ≠ 0 ↔
      lineEnabledBit s (gic_irq num irq_off) ≠ 0) := by
  have h16 : ¬ gic_irq num irq_off < 16 := by omega
  have htyc : ¬ (ty ≠ VMM_IRQ_TYPE_LEVEL_HIGH ∧ ty ≠ VMM_IRQ_TYPE_EDGE_RISING) := by
    rcases hty with h | h <;> simp [h]
  by_cases he :
      s.enable (gic_irq num irq_off / 32 * 4) &&& (1 <<< (gic_irq num irq_off % 32)) ≠ 0
  · constructor
    · simp only [gic_set_type]
      rw [if_neg h16, if_neg htyc, if_pos he]
    · have hval :
          lineEnabledBit (gic_set_type gi s num irq_off ty).2.1 (gic_irq num irq_off) =
            1 <<< (gic_irq num irq_off % 32) := by
        simp only [gic_set_type]
        rw [if_neg h16, if_neg htyc, if_pos he]
        simp [lineEnabledBit, distWriteEnableSet, distWriteConfig, distWriteEnableClear,
          lor_land_self]
      rw [hval]
      have hpos : 1 <<< (gic_irq num irq_off % 32) ≠ 0 :=
        Nat.pos_iff_ne_zero.mp (one_shiftLeft_pos _)
      exact iff_of_true hpos he
  · constructor
    · simp only [gic_set_type]
      rw [if_neg h16, if_neg htyc, if_neg he]
    · have hval :
          lineEnabledBit (gic_set_type gi s num irq_off ty).2.1 (gic_irq num irq_off) =
            lineEnabledBit s (gic_irq num irq_off) := by
        simp only [gic_set_type]
        rw [if_neg h16, if_neg htyc, if_neg he]
        simp [lineEnabledBit, distWriteConfig]
      rw [hval]

theorem gic_set_type_preserves_enable_witness :
    (gic_set_type 0 distStateAllOnes 40 0 VMM_IRQ_TYPE_EDGE_RISING).1 = GicResult.ok ∧
    (lineEnabledBit (gic_set_type 0 distStateAllOnes 40 0 VMM_IRQ_TYPE_EDGE_RISING).2.1
        (gic_irq 40 0) ≠ 0 ↔
      lineEnabledBit distStateAllOnes (gic_irq 40 0) ≠ 0) :=
  gic_set_type_preserves_enable 0 distStateAllOnes 40 0 VMM_IRQ_TYPE_EDGE_RISING
    (by decide) (Or.inr rfl)

/-- Claim C6: `gic_eoi_irq` with eoimode set performs exactly two writes,
the local line number to the EOI register and then the same number to the
deactivate register of the secondary interface, in that order; with eoimode
clear it performs exactly one write, of the local number to EOI. -/
theorem gic_eoi_write_trace (gi : Nat) (em : Bool) (num irq_off : Nat) :
    (em = true →
      gic_eoi_irq gi em num irq_off =
        [⟨gi, .cpuEoi, gic_irq num irq_off⟩, ⟨gi, .cpu2Dir, gic_irq num irq_off⟩]) ∧
    (em = false →
      gic_eoi_irq gi em num irq_off = [⟨gi, .cpuEoi, gic_irq num irq_off⟩]) := by
  constructor <;> intro h <;> simp [gic_eoi_irq, h]

theorem gic_eoi_write_trace_witness :
    gic_eoi_irq 0 true 40 32 =
      [⟨0, .cpuEoi, gic_irq 40 32⟩, ⟨0, .cpu2Dir, gic_irq 40 32⟩] :=
  (gic_eoi_write_trace 0 true 40 32).1 rfl

/-- Claim C7: each invalid-argument condition returns the invalid-argument
error and performs no hardware register write (the distributor state is
returned unchanged and the write trace is empty): `gic_set_type` on a line
with local number below 16, `gic_set_type` with an unsupported type, and
`gic_set_affinity` with a first target core index of 8 or greater. -/
theorem gic_invalid_args_reject_no_write (gi : Nat) (s : DistState)
    (num irq_off ty cpu : Nat) :
    (gic_irq num irq_off < 16 →
      gic_set_type gi s num irq_off ty = (.einvalid, s, [])) ∧
    (ty ≠ VMM_IRQ_TYPE_LEVEL_HIGH → ty ≠ VMM_IRQ_TYPE_EDGE_RISING →
      gic_set_type gi s num irq_off ty = (.einvalid, s, [])) ∧
    (8 ≤ cpu → gic_set_affinity gi s num irq_off cpu = (.einvalid, s, [])) := by
  refine ⟨fun h => ?_, fun h1 h2 => ?_, fun h => ?_⟩
  · simp [gic_set_type, h]
  · by_cases h16 : gic_irq num irq_off < 16
    · simp [gic_set_type, h16]
    · simp [gic_set_type, h16, h1, h2]
  · simp [gic_set_affinity, h]

theorem gic_invalid_args_reject_no_write_witness :
    gic_set_type 0 distStateAllOnes 8 0 99 = (GicResult.einvalid, distStateAllOnes, []) ∧
    gic_set_type 0 distStateAllOnes 8 0 99 = (GicResult.einvalid, distStateAllOnes, []) ∧
    gic_set_affinity 0 distStateAllOnes 8 0 8 = (GicResult.einvalid, distStateAllOnes, []) :=
  ⟨(gic_invalid_args_reject_no_write 0 distStateAllOnes 8 0 99 8).1 (by decide),
   (gic_invalid_args_reject_no_write 0 distStateAllOnes 8 0 99 8).2.1
     (by decide) (by decide),
   (gic_invalid_args_reject_no_write 0 distStateAllOnes 8 0 99 8).2.2 (by decide)⟩

/-- Claim C8 (counterexample): when the topology has a parent but no
`parent_irq` value, the line the controller is cascaded on is 1020, not the
spurious sentinel 1023 the claim names. -/
theorem gic_devtree_parent_fallback_ne_1023 :
    gic_devtree_cascade true none ≠ some 1023 ∧
    gic_devtree_parent_irq none = 1020 := by decide

/-- Claim C8 (amended): when bootstrap runs with a parent controller and
the topology provides no parent-line number, the controller is registered
via the Cascade Bridge against line number 1020 (the architected maximum
line count, not the spurious sentinel 1023). -/
theorem gic_devtree_parent_fallback_1020 :
    gic_devtree_cascade true none = some 1020 := rfl

/-- Claim C9: for every line and cpu mask, `gic_raise` issues the memory
barrier immediately before its single register write, and that write stores
`(mask << 16) | num` (32-bit value) to the software-interrupt register of
the first controller `gic_data[0]`, regardless of which controller
(`ownerIdx`) owns the line. -/
theorem gic_raise_barrier_then_softint_gic0 (ownerIdx cpumap num : Nat) :
    gic_raise ownerIdx cpumap num =
      [.archWmb, .write ⟨0, .distSoftint, ((cpumap <<< 16) ||| num) % U32_MOD⟩] := rfl

/-- Claim C10: `gic_init_bases` computes `irq_offset` as
`((irq_start - 1) mod 2^32) & ~31` in 32-bit unsigned arithmetic; for
`irq_start = 0` this wraps to `2^32 - 32`, and for any `irq_start` that is
a positive multiple of 32 it yields `irq_start - 32`. -/
theorem gic_irq_offset_wraps_and_rounds :
    gic_irq_offset 0 = 4294967264 ∧
    ∀ irq_start : Nat, 0 < irq_start → irq_start < 4294967296 → irq_start % 32 = 0 →
      gic_irq_offset irq_start = irq_start - 32 := by
  constructor
  · decide
  · intro s hs hlt hmod
    unfold gic_irq_offset
    have h1 : u32_sub s 1 = s - 1 := by
      unfold u32_sub U32_MOD
      omega
    rw [h1, land_mask32 _ (by omega)]
    omega

theorem gic_irq_offset_wraps_and_rounds_witness :
    gic_irq_offset 64 = 64 - 32 :=
  gic_irq_offset_wraps_and_rounds.2 64 (by decide) (by decide) (by decide)
